import Mathlib

/-!
Verification of `script.py` from `mark_my_expense`: a JSON → CSV expense
exporter.  The program filters records whose `type` field is the string
`"EXPENSE"`, normalises category names, reformats dates, and writes one CSV
row per kept record.  This file embeds the program's data model and its
operations (`replace_category`, the `datetime.strptime`/`strftime` date
handling, and the `parse_expenses_to_csv` pipeline) and proves the
specification's claims about them.
-/

namespace MarkMyExpense

/-- A JSON value as produced by `json.load`.  Numbers are carried by their
literal representation: the program never inspects or computes with numeric
values, it only passes them through verbatim to the CSV writer. -/
inductive JValue where
  | null
  | bool (b : Bool)
  | num (lit : String)
  | str (s : String)
  | arr (elems : List JValue)
  | obj (fields : List (String × JValue))

/-- Whether a JSON value is a Python `str`. -/
def JValue.isStr : JValue → Bool
  | .str _ => true
  | _ => false

/-- Python `==` between an arbitrary value and a string literal: value
equality when both are strings, `False` otherwise (no exception). -/
def pyEqStr : JValue → String → Bool
  | .str s, t => s == t
  | _, _ => false

/-- One input record (a JSON object), restricted to the keys the program
reads.  `none` models an absent key; `some .null` models an explicit JSON
`null` (Python `None`). -/
structure Entry where
  type : Option JValue := none
  date : Option JValue := none
  bankname : Option JValue := none
  category : Option JValue := none
  amount : Option JValue := none
  description : Option JValue := none

/-- Python `entry.get(key, default)` on the modelled dict. -/
def dictGet (v : Option JValue) (default : JValue) : JValue :=
  v.getD default

/-- The filter condition `entry.get('type') == 'EXPENSE'`:
`get` without a default returns `None` for an absent key, and Python `==`
against the string literal is `False` for any non-string value. -/
def typeIsExpense (e : Entry) : Bool :=
  pyEqStr (dictGet e.type .null) "EXPENSE"

/-- The Python `str.lower()` method, modelled as the character-wise ASCII case map
(`Char.toLower` lowers exactly `A`–`Z`).  The Unicode-aware Python `lower`
agrees with this on every comparison against the program's six ASCII keys:
the only Unicode character whose lowercase is a plain ASCII letter is
U+212A (Kelvin sign, to `k`) and no key contains `k`. -/
def pyLower (s : String) : String := String.mk (s.data.map Char.toLower)

/-- The function `replace_category` from `script.py`: case-insensitive comparison against
six hardcoded keys, fixed-cased replacement values, identity otherwise. -/
def replace_category (category : String) : String :=
  if pyLower category = "grooming" then "Personal Care"
  else if pyLower category = "misc" then "Others"
  else if pyLower category = "household" then "Family"
  else if pyLower category = "bills" then "Bills & Utilities"
  else if pyLower category = "dinning" then "Food & Dinning"
  else if pyLower category = "emi" then "EMI & Loans"
  else category

/-! ### `datetime.strptime(date_str, '%Y-%m-%d %H:%M:%S')`

CPython's `_strptime` compiles the format into a regular expression:
`%Y` is exactly four digits; `%m` is `1[0-2]|0[1-9]|[1-9]`;
`%d` is `3[01]|[12]\d|0[1-9]|[1-9]| [1-9]`; `%H` is `2[0-3]|[0-1]\d|\d`;
`%M` is `[0-5]\d|\d`; `%S` is `6[0-1]|[0-5]\d|\d`; a literal whitespace
character in the format matches one or more whitespace characters.
Alternatives are tried left to right; since every two-digit alternative is
followed by a non-digit literal in this format, first-match-wins equals
full backtracking here.  The whole string must be consumed, and the
`datetime` constructor then validates the ranges (notably day against
month length and second at most 59). -/

/-- Digit character for `d ≤ 9` (ASCII `'0' + d`). -/
def dChar (d : Nat) : Char := Char.ofNat (48 + d)

/-- Numeric value of a digit character. -/
def digitVal (c : Char) : Nat := c.toNat - 48

/-- Character range test, e.g. `[1-9]`. -/
def inRange (c lo hi : Char) : Bool := decide (lo ≤ c ∧ c ≤ hi)

/-- The ASCII part of Python regex `\s`: space, tab, newline, vertical tab, form
feed, carriage return. -/
def isWs (c : Char) : Bool :=
  c == ' ' || c == '\t' || c == '\n' || c == Char.ofNat 11 ||
  c == Char.ofNat 12 || c == '\r'

/-- Format code `%Y`: exactly four digits. -/
def match_Y : List Char → Option (Nat × List Char)
  | c1 :: c2 :: c3 :: c4 :: rest =>
    if c1.isDigit && c2.isDigit && c3.isDigit && c4.isDigit then
      some (1000 * digitVal c1 + 100 * digitVal c2 + 10 * digitVal c3 + digitVal c4, rest)
    else none
  | _ => none

/-- A literal character in the format. -/
def match_lit (c : Char) : List Char → Option (List Char)
  | c' :: rest => if c' == c then some rest else none
  | [] => none

/-- Whitespace in the format: one or more whitespace characters, greedy. -/
def match_ws : List Char → Option (List Char)
  | c :: rest => if isWs c then some (rest.dropWhile isWs) else none
  | [] => none

/-- Format code `%m`: `1[0-2]|0[1-9]|[1-9]`, first match wins. -/
def match_m : List Char → Option (Nat × List Char)
  | c1 :: c2 :: rest =>
    if c1 == '1' && inRange c2 '0' '2' then some (10 + digitVal c2, rest)
    else if c1 == '0' && inRange c2 '1' '9' then some (digitVal c2, rest)
    else if inRange c1 '1' '9' then some (digitVal c1, c2 :: rest)
    else none
  | [c1] => if inRange c1 '1' '9' then some (digitVal c1, []) else none
  | [] => none

/-- Format code `%d`: `3[01]|[12]\d|0[1-9]|[1-9]| [1-9]`, first match wins. -/
def match_d : List Char → Option (Nat × List Char)
  | c1 :: c2 :: rest =>
    if c1 == '3' && inRange c2 '0' '1' then some (30 + digitVal c2, rest)
    else if inRange c1 '1' '2' && c2.isDigit then
      some (10 * digitVal c1 + digitVal c2, rest)
    else if c1 == '0' && inRange c2 '1' '9' then some (digitVal c2, rest)
    else if inRange c1 '1' '9' then some (digitVal c1, c2 :: rest)
    else if c1 == ' ' && inRange c2 '1' '9' then some (digitVal c2, rest)
    else none
  | [c1] => if inRange c1 '1' '9' then some (digitVal c1, []) else none
  | [] => none

/-- Format code `%H`: `2[0-3]|[0-1]\d|\d`, first match wins. -/
def match_H : List Char → Option (Nat × List Char)
  | c1 :: c2 :: rest =>
    if c1 == '2' && inRange c2 '0' '3' then some (20 + digitVal c2, rest)
    else if inRange c1 '0' '1' && c2.isDigit then
      some (10 * digitVal c1 + digitVal c2, rest)
    else if c1.isDigit then some (digitVal c1, c2 :: rest)
    else none
  | [c1] => if c1.isDigit then some (digitVal c1, []) else none
  | [] => none

/-- Format code `%M`: `[0-5]\d|\d`, first match wins. -/
def match_M : List Char → Option (Nat × List Char)
  | c1 :: c2 :: rest =>
    if inRange c1 '0' '5' && c2.isDigit then
      some (10 * digitVal c1 + digitVal c2, rest)
    else if c1.isDigit then some (digitVal c1, c2 :: rest)
    else none
  | [c1] => if c1.isDigit then some (digitVal c1, []) else none
  | [] => none

/-- Format code `%S`: `6[0-1]|[0-5]\d|\d`, first match wins. -/
def match_S : List Char → Option (Nat × List Char)
  | c1 :: c2 :: rest =>
    if c1 == '6' && inRange c2 '0' '1' then some (60 + digitVal c2, rest)
    else if inRange c1 '0' '5' && c2.isDigit then
      some (10 * digitVal c1 + digitVal c2, rest)
    else if c1.isDigit then some (digitVal c1, c2 :: rest)
    else none
  | [c1] => if c1.isDigit then some (digitVal c1, []) else none
  | [] => none

/-- The six fields of a parsed `datetime`. -/
structure DateTime6 where
  year : Nat
  month : Nat
  day : Nat
  hour : Nat
  minute : Nat
  second : Nat
deriving DecidableEq, Repr

/-- The compiled regex for `'%Y-%m-%d %H:%M:%S'`, returning the parsed
fields and the unconsumed suffix. -/
def parseFields (cs : List Char) : Option (DateTime6 × List Char) :=
  (match_Y cs).bind fun yc =>
  (match_lit '-' yc.2).bind fun cs1 =>
  (match_m cs1).bind fun mc =>
  (match_lit '-' mc.2).bind fun cs2 =>
  (match_d cs2).bind fun dc =>
  (match_ws dc.2).bind fun cs3 =>
  (match_H cs3).bind fun hc =>
  (match_lit ':' hc.2).bind fun cs4 =>
  (match_M cs4).bind fun mic =>
  (match_lit ':' mic.2).bind fun cs5 =>
  (match_S cs5).map fun sc =>
  (⟨yc.1, mc.1, dc.1, hc.1, mic.1, sc.1⟩, sc.2)

/-- Whether year `y` is a leap year. -/
def isLeap (y : Nat) : Bool :=
  (y % 4 == 0 && y % 100 != 0) || y % 400 == 0

/-- Number of days in month `m` of year `y`. -/
def daysInMonth (y m : Nat) : Nat :=
  if m = 2 then (if isLeap y then 29 else 28)
  else if m = 4 ∨ m = 6 ∨ m = 9 ∨ m = 11 then 30
  else 31

/-- The range checks of the `datetime` constructor (reached after a
successful regex match): year in `MINYEAR..MAXYEAR`, valid month, day
within the month's length, and time fields in range — in particular
seconds `60`/`61`, which the regex admits, are rejected here. -/
def datetimeCtorOK (dt : DateTime6) : Bool :=
  decide (1 ≤ dt.year) && decide (dt.year ≤ 9999) &&
  decide (1 ≤ dt.month) && decide (dt.month ≤ 12) &&
  decide (1 ≤ dt.day) && decide (dt.day ≤ daysInMonth dt.year dt.month) &&
  decide (dt.hour ≤ 23) && decide (dt.minute ≤ 59) && decide (dt.second ≤ 59)

/-- The call `datetime.strptime(s, '%Y-%m-%d %H:%M:%S')`, with `none`
modelling `ValueError` (regex mismatch, unconverted trailing data, or
constructor range failure). -/
def strptime_YmdHMS (s : String) : Option DateTime6 :=
  match parseFields s.data with
  | some (dt, []) => if datetimeCtorOK dt then some dt else none
  | _ => none

/-- Two-digit zero-padded field (`%m`, `%d`). -/
def pad2 (n : Nat) : String := String.mk [dChar (n / 10), dChar (n % 10)]

/-- Four-digit zero-padded number (the strict `YYYY` input shape). -/
def pad4 (n : Nat) : String :=
  String.mk [dChar (n / 1000), dChar (n / 100 % 10), dChar (n / 10 % 10), dChar (n % 10)]

/-- Decimal digits of a year without leading zeros, for years up to 9999
(every year `strptime` can produce).  CPython delegates `strftime` to the
platform C library, and glibc's `%Y` prints the year as an unpadded
decimal number: year 5 prints as `5`, not `0005`. -/
def yearChars (y : Nat) : List Char :=
  if y < 10 then [dChar y]
  else if y < 100 then [dChar (y / 10), dChar (y % 10)]
  else if y < 1000 then [dChar (y / 100), dChar (y / 10 % 10), dChar (y % 10)]
  else [dChar (y / 1000), dChar (y / 100 % 10), dChar (y / 10 % 10), dChar (y % 10)]

/-- The call `parsed_date.strftime('%Y-%m-%d')`: unpadded year (glibc
`%Y`), zero-padded month and day. -/
def strftime_Ymd (dt : DateTime6) : String :=
  String.mk (yearChars dt.year) ++ "-" ++ pad2 dt.month ++ "-" ++ pad2 dt.day

/-- The date formatter of the pipeline (lines 40–44 of `script.py`): the
`try/except ValueError` around `strptime`/`strftime`, producing `''` on
parse failure. -/
def formatted_date (date_str : String) : String :=
  match strptime_YmdHMS date_str with
  | some dt => strftime_Ymd dt
  | none => ""

/-! ### The pipeline -/

/-- A Python exception escaping the loop body uncaught. -/
inductive PyExc where
  | typeError
  | attributeError
deriving DecidableEq, Repr

/-- One output row, keyed `Account, Category, Amount, Date, Description`.
`Category` and `Date` are always strings (`replace_category` returns a
string and the date formatter returns a string); the other three cells
carry the record's values verbatim. -/
structure Row where
  Account : JValue
  Category : String
  Amount : JValue
  Date : String
  Description : JValue

/-- The loop body for one kept record (lines 39–53 of `script.py`).
`entry.get('date', '')` defaults an absent key to `''`; `strptime` raises
an uncaught `TypeError` when handed a non-string, since the handler
catches only `ValueError`.  `replace_category(entry.get('category', ''))`
calls `.lower()` on its argument, an uncaught `AttributeError` for a
non-string; the date is computed before the row dict is built. -/
def processEntry (e : Entry) : Except PyExc Row :=
  match dictGet e.date (.str "") with
  | .str ds =>
    match dictGet e.category (.str "") with
    | .str cs =>
      .ok { Account := dictGet e.bankname (.str "")
          , Category := replace_category cs
          , Amount := dictGet e.amount (.str "")
          , Date := formatted_date ds
          , Description := dictGet e.description (.str "") }
    | _ => .error .attributeError
  | _ => .error .typeError

/-- The filter-and-project loop (lines 35–53): iterate in input order,
keep records whose `type` is `"EXPENSE"`, append one row per kept record;
an uncaught exception aborts the whole run. -/
def buildExpenses : List Entry → Except PyExc (List Row)
  | [] => .ok []
  | e :: rest =>
    if typeIsExpense e then
      match processEntry e with
      | .error ex => .error ex
      | .ok r =>
        match buildExpenses rest with
        | .error ex => .error ex
        | .ok rs => .ok (r :: rs)
    else buildExpenses rest

/-- The CSV header written by `DictWriter.writeheader()`. -/
def csvHeader : List String :=
  ["Account", "Category", "Amount", "Date", "Description"]

/-- The written CSV file: header row plus data rows. -/
structure CSVFile where
  header : List String
  rows : List Row

/-- The console message printed at the end of a completed run. -/
inductive ConsoleMsg where
  | successExported (count : Nat) (path : String)
  | noEntriesFound
deriving Repr

/-- Observable outcome of a completed run: the file written (if any) and
the console message. -/
structure RunOutput where
  file : Option CSVFile
  message : ConsoleMsg

/-- The function `parse_expenses_to_csv` (lines 22–67), from the decoded JSON array
onward: build the rows, then either write header plus rows and report the
count and path, or write nothing and report that no entries were found. -/
def parse_expenses_to_csv (data : List Entry) (output_csv_file : String) :
    Except PyExc RunOutput :=
  match buildExpenses data with
  | .error ex => .error ex
  | .ok expenses =>
    if expenses.isEmpty then
      .ok { file := none, message := .noEntriesFound }
    else
      .ok { file := some { header := csvHeader, rows := expenses }
          , message := .successExported expenses.length output_csv_file }

/-- Number of input records kept by the filter. -/
def countExpenses (data : List Entry) : Nat :=
  data.countP typeIsExpense

/-- Number of CSV data rows in a completed run's output (zero when no file
was written). -/
def rowsWrittenOf (out : RunOutput) : Nat :=
  match out.file with
  | some f => f.rows.length
  | none => 0

/-- Characters of a date string in the exact strict shape
`YYYY-MM-DD HH:MM:SS` (four-digit year, two-digit zero-padded month, day,
hour, minute, second, single separators). -/
def strictChars (y m d h mi s : Nat) : List Char :=
  [dChar (y / 1000), dChar (y / 100 % 10), dChar (y / 10 % 10), dChar (y % 10), '-',
   dChar (m / 10), dChar (m % 10), '-', dChar (d / 10), dChar (d % 10), ' ',
   dChar (h / 10), dChar (h % 10), ':', dChar (mi / 10), dChar (mi % 10), ':',
   dChar (s / 10), dChar (s % 10)]

/-- A date string in the exact strict shape `YYYY-MM-DD HH:MM:SS`. -/
def strictDateString (y m d h mi s : Nat) : String :=
  String.mk (strictChars y m d h mi s)

/-- Placeholder row (never observed: `rowOf` is only read at entries whose
processing succeeds). -/
def defaultRow : Row :=
  { Account := .str "", Category := "", Amount := .str "", Date := "", Description := .str "" }

/-- The row an entry contributes when its processing succeeds. -/
def rowOf (e : Entry) : Row :=
  match processEntry e with
  | .ok r => r
  | .error _ => defaultRow

/-- The loop body completes without an uncaught exception exactly when the
`date` and `category` values handed to `strptime` and `.lower()` are
strings (an absent key defaults to the string `''`). -/
def entryFieldsOK (e : Entry) : Bool :=
  (dictGet e.date (.str "")).isStr && (dictGet e.category (.str "")).isStr

/-! ### Lemmas about the date parser on strictly formatted input -/

theorem dChar_isDigit (k : Nat) (hk : k ≤ 9) : (dChar k).isDigit = true := by
  interval_cases k <;> decide

theorem digitVal_dChar (k : Nat) (hk : k ≤ 9) : digitVal (dChar k) = k := by
  interval_cases k <;> decide

theorem isWs_dChar (k : Nat) (hk : k ≤ 9) : isWs (dChar k) = false := by
  interval_cases k <;> decide

theorem match_Y_pad (y : Nat) (hy : y ≤ 9999) (rest : List Char) :
    match_Y (dChar (y / 1000) :: dChar (y / 100 % 10) :: dChar (y / 10 % 10) ::
      dChar (y % 10) :: rest) = some (y, rest) := by
  have h1 : y / 1000 ≤ 9 := by omega
  have h2 : y / 100 % 10 ≤ 9 := by omega
  have h3 : y / 10 % 10 ≤ 9 := by omega
  have h4 : y % 10 ≤ 9 := by omega
  simp only [match_Y, dChar_isDigit _ h1, dChar_isDigit _ h2, dChar_isDigit _ h3,
    dChar_isDigit _ h4, digitVal_dChar _ h1, digitVal_dChar _ h2, digitVal_dChar _ h3,
    digitVal_dChar _ h4, Bool.and_self, if_true, Option.some.injEq, Prod.mk.injEq]
  exact ⟨by omega, trivial⟩

theorem match_lit_cons (c : Char) (rest : List Char) :
    match_lit c (c :: rest) = some rest := by
  simp [match_lit]

theorem match_ws_space (c : Char) (l : List Char) (hc : isWs c = false) :
    match_ws (' ' :: c :: l) = some (c :: l) := by
  have hsp : isWs ' ' = true := rfl
  simp [match_ws, hsp, List.dropWhile, hc]

theorem match_m_pad (m : Nat) (hm1 : 1 ≤ m) (hm2 : m ≤ 12) (rest : List Char) :
    match_m (dChar (m / 10) :: dChar (m % 10) :: rest) = some (m, rest) := by
  interval_cases m <;> rfl

theorem match_d_pad (d : Nat) (hd1 : 1 ≤ d) (hd2 : d ≤ 31) (rest : List Char) :
    match_d (dChar (d / 10) :: dChar (d % 10) :: rest) = some (d, rest) := by
  interval_cases d <;> rfl

theorem match_H_pad (h : Nat) (hh : h ≤ 23) (rest : List Char) :
    match_H (dChar (h / 10) :: dChar (h % 10) :: rest) = some (h, rest) := by
  interval_cases h <;> rfl

theorem match_M_pad (mi : Nat) (hmi : mi ≤ 59) (rest : List Char) :
    match_M (dChar (mi / 10) :: dChar (mi % 10) :: rest) = some (mi, rest) := by
  interval_cases mi <;> rfl

theorem match_S_pad (s : Nat) (hs : s ≤ 59) (rest : List Char) :
    match_S (dChar (s / 10) :: dChar (s % 10) :: rest) = some (s, rest) := by
  interval_cases s <;> rfl

theorem parseFields_strict (y m d h mi s : Nat) (hy : y ≤ 9999) (hm1 : 1 ≤ m)
    (hm2 : m ≤ 12) (hd1 : 1 ≤ d) (hd2 : d ≤ 31) (hh : h ≤ 23) (hmi : mi ≤ 59)
    (hs : s ≤ 59) :
    parseFields (strictChars y m d h mi s) = some (⟨y, m, d, h, mi, s⟩, []) := by
  have hh10 : h / 10 ≤ 9 := by omega
  simp only [parseFields, strictChars, match_Y_pad y hy, Option.some_bind,
    match_lit_cons, match_m_pad m hm1 hm2, match_d_pad d hd1 hd2,
    match_ws_space _ _ (isWs_dChar _ hh10), match_H_pad h hh, match_M_pad mi hmi,
    match_S_pad s hs, Option.map_some']

theorem daysInMonth_le (y m : Nat) : daysInMonth y m ≤ 31 := by
  unfold daysInMonth
  split_ifs <;> omega

theorem strptime_strict (y m d h mi s : Nat) (hy1 : 1 ≤ y) (hy : y ≤ 9999)
    (hm1 : 1 ≤ m) (hm2 : m ≤ 12) (hd1 : 1 ≤ d) (hd2 : d ≤ daysInMonth y m)
    (hh : h ≤ 23) (hmi : mi ≤ 59) (hs : s ≤ 59) :
    strptime_YmdHMS (strictDateString y m d h mi s) = some ⟨y, m, d, h, mi, s⟩ := by
  have hd31 : d ≤ 31 := le_trans hd2 (daysInMonth_le y m)
  unfold strptime_YmdHMS strictDateString
  rw [show (String.mk (strictChars y m d h mi s)).data = strictChars y m d h mi s from rfl]
  rw [parseFields_strict y m d h mi s hy hm1 hm2 hd1 hd31 hh hmi hs]
  simp [datetimeCtorOK, hy1, hy, hm1, hm2, hd1, hd2, hh, hmi, hs]

theorem yearChars_ge1000 (y : Nat) (h1 : 1000 ≤ y) (h2 : y ≤ 9999) :
    String.mk (yearChars y) = pad4 y := by
  unfold yearChars pad4
  rw [if_neg (by omega), if_neg (by omega), if_neg (by omega)]

/-! ### Lemmas about the pipeline -/

theorem processEntry_ok (e : Entry) (ds cs : String)
    (hd : dictGet e.date (.str "") = .str ds)
    (hc : dictGet e.category (.str "") = .str cs) :
    processEntry e = .ok
      { Account := dictGet e.bankname (.str "")
      , Category := replace_category cs
      , Amount := dictGet e.amount (.str "")
      , Date := formatted_date ds
      , Description := dictGet e.description (.str "") } := by
  unfold processEntry
  rw [hd, hc]

theorem rowOf_eq (e : Entry) (r : Row) (h : processEntry e = .ok r) : rowOf e = r := by
  unfold rowOf
  rw [h]

theorem entryFieldsOK_elim (e : Entry) (h : entryFieldsOK e = true) :
    ∃ ds cs, dictGet e.date (.str "") = .str ds ∧
      dictGet e.category (.str "") = .str cs := by
  unfold entryFieldsOK at h
  rw [Bool.and_eq_true] at h
  obtain ⟨h1, h2⟩ := h
  cases hd : dictGet e.date (.str "") <;> rw [hd] at h1 <;>
    simp [JValue.isStr] at h1
  cases hc : dictGet e.category (.str "") <;> rw [hc] at h2 <;>
    simp [JValue.isStr] at h2
  exact ⟨_, _, rfl, rfl⟩

theorem processEntry_ok_of (e : Entry) (h : entryFieldsOK e = true) :
    processEntry e = .ok (rowOf e) := by
  obtain ⟨ds, cs, hd, hc⟩ := entryFieldsOK_elim e h
  rw [rowOf_eq e _ (processEntry_ok e ds cs hd hc)]
  exact processEntry_ok e ds cs hd hc

theorem buildExpenses_ok_eq (data : List Entry) (rows : List Row)
    (h : buildExpenses data = .ok rows) :
    rows = (data.filter typeIsExpense).map rowOf := by
  induction data generalizing rows with
  | nil =>
    simp only [buildExpenses, Except.ok.injEq] at h
    simp [← h]
  | cons e rest ih =>
    by_cases hty : typeIsExpense e = true
    · simp only [buildExpenses, hty, if_true] at h
      cases hpe : processEntry e <;> rw [hpe] at h
      · exact absurd h (by simp)
      · cases hbe : buildExpenses rest <;> rw [hbe] at h
        · exact absurd h (by simp)
        · simp only [Except.ok.injEq] at h
          rw [← h, List.filter_cons_of_pos hty, List.map_cons,
            rowOf_eq e _ hpe, ih _ hbe]
    · simp only [buildExpenses, hty, if_false, Bool.false_eq_true] at h
      rw [List.filter_cons_of_neg (by simp [hty]), ih _ h]

theorem buildExpenses_total (data : List Entry)
    (h : ∀ e ∈ data, typeIsExpense e = true → entryFieldsOK e = true) :
    buildExpenses data = .ok ((data.filter typeIsExpense).map rowOf) := by
  induction data with
  | nil => rfl
  | cons e rest ih =>
    have hrest : ∀ x ∈ rest, typeIsExpense x = true → entryFieldsOK x = true :=
      fun x hx => h x (List.mem_cons_of_mem _ hx)
    by_cases hty : typeIsExpense e = true
    · have hok := processEntry_ok_of e (h e (List.mem_cons_self e rest) hty)
      rw [List.filter_cons_of_pos hty, List.map_cons]
      simp only [buildExpenses, hty, if_true, hok, ih hrest]
    · rw [List.filter_cons_of_neg (by simp [hty])]
      simp only [buildExpenses, hty, if_false, Bool.false_eq_true]
      exact ih hrest

theorem buildExpenses_filter (data : List Entry) :
    buildExpenses data = buildExpenses (data.filter typeIsExpense) := by
  induction data with
  | nil => rfl
  | cons e rest ih =>
    by_cases hty : typeIsExpense e = true
    · rw [List.filter_cons_of_pos hty]
      simp only [buildExpenses, hty, if_true]
      rw [ih]
    · rw [List.filter_cons_of_neg (by simp [hty])]
      simp only [buildExpenses, hty, if_false, Bool.false_eq_true]
      exact ih

theorem countExpenses_eq_filter_length (data : List Entry) :
    countExpenses data = (data.filter typeIsExpense).length := by
  unfold countExpenses
  exact List.countP_eq_length_filter typeIsExpense data

theorem parse_eq_ok (data : List Entry) (path : String) (expenses : List Row)
    (hbe : buildExpenses data = .ok expenses) :
    parse_expenses_to_csv data path =
      if expenses.isEmpty then
        .ok { file := none, message := .noEntriesFound }
      else
        .ok { file := some { header := csvHeader, rows := expenses }
            , message := .successExported expenses.length path } := by
  unfold parse_expenses_to_csv
  rw [hbe]

theorem parse_eq_err (data : List Entry) (path : String) (ex : PyExc)
    (hbe : buildExpenses data = .error ex) :
    parse_expenses_to_csv data path = .error ex := by
  unfold parse_expenses_to_csv
  rw [hbe]

/-! ### The claims -/

/-- C3: `replace_category` is total on strings; it compares its input
lowercased against exactly six keys and returns the fixed specifically-cased
replacement, and on every other string (including ones differing only by
surrounding whitespace) it returns the original input unmodified. -/
theorem C3_category_normalizer (c : String) :
    (pyLower c = "grooming" → replace_category c = "Personal Care") ∧
    (pyLower c = "misc" → replace_category c = "Others") ∧
    (pyLower c = "household" → replace_category c = "Family") ∧
    (pyLower c = "bills" → replace_category c = "Bills & Utilities") ∧
    (pyLower c = "dinning" → replace_category c = "Food & Dinning") ∧
    (pyLower c = "emi" → replace_category c = "EMI & Loans") ∧
    (pyLower c ∉ ["grooming", "misc", "household", "bills", "dinning", "emi"] →
      replace_category c = c) := by
  refine ⟨fun h => by simp [replace_category, h],
          fun h => by simp [replace_category, h],
          fun h => by simp [replace_category, h],
          fun h => by simp [replace_category, h],
          fun h => by simp [replace_category, h],
          fun h => by simp [replace_category, h],
          fun h => ?_⟩
  simp only [List.mem_cons, List.not_mem_nil, or_false, not_or] at h
  obtain ⟨n1, n2, n3, n4, n5, n6⟩ := h
  simp [replace_category, n1, n2, n3, n4, n5, n6]

/-- C3 witness: `" misc"` (leading space) is not one of the six keys, so it
passes through unmodified. -/
theorem C3_witness : replace_category " misc" = " misc" :=
  (C3_category_normalizer " misc").2.2.2.2.2.2 (by decide)

/-- C9: `replace_category` is idempotent — none of the six canonical
replacement strings lowercases to one of the six recognized keys, so a
second application changes nothing. -/
theorem C9_replace_category_idempotent (c : String) :
    replace_category (replace_category c) = replace_category c := by
  by_cases h1 : pyLower c = "grooming"
  · rw [show replace_category c = "Personal Care" from by simp [replace_category, h1]]
    decide
  by_cases h2 : pyLower c = "misc"
  · rw [show replace_category c = "Others" from by simp [replace_category, h2]]
    decide
  by_cases h3 : pyLower c = "household"
  · rw [show replace_category c = "Family" from by simp [replace_category, h3]]
    decide
  by_cases h4 : pyLower c = "bills"
  · rw [show replace_category c = "Bills & Utilities" from by simp [replace_category, h4]]
    decide
  by_cases h5 : pyLower c = "dinning"
  · rw [show replace_category c = "Food & Dinning" from by simp [replace_category, h5]]
    decide
  by_cases h6 : pyLower c = "emi"
  · rw [show replace_category c = "EMI & Loans" from by simp [replace_category, h6]]
    decide
  have hc : replace_category c = c := by simp [replace_category, h1, h2, h3, h4, h5, h6]
  rw [hc, hc]

/-- C4 counterexample: `"0005-03-02 01:02:03"` is in the exact strict
format (four-digit year, zero-padded fields) and parses successfully, yet
the formatter emits `"5-03-02"` — glibc's `%Y` does not zero-pad the year —
which is not the date portion `"0005-03-02"` of the input. -/
theorem C4_counterexample :
    (strptime_YmdHMS "0005-03-02 01:02:03").isSome = true ∧
    formatted_date "0005-03-02 01:02:03" = "5-03-02" ∧
    formatted_date "0005-03-02 01:02:03" ≠ "0005-03-02" := by
  refine ⟨rfl, rfl, ?_⟩
  decide

/-- C4 (amended): for every date string in the exact strict format
`YYYY-MM-DD HH:MM:SS` that parses successfully and whose year is at least
1000, the formatter emits the date portion in `YYYY-MM-DD` format (not
`DD-MM-YYYY`); e.g. `"2025-01-01 14:01:15"` yields `"2025-01-01"`.  (For
years below 1000 the platform `%Y` drops the leading zeros, see the
counterexample.) -/
theorem C4_date_format_roundtrip (y m d h mi s : Nat) (hy1 : 1000 ≤ y)
    (hy : y ≤ 9999) (hm1 : 1 ≤ m) (hm2 : m ≤ 12) (hd1 : 1 ≤ d)
    (hd2 : d ≤ daysInMonth y m) (hh : h ≤ 23) (hmi : mi ≤ 59) (hs : s ≤ 59) :
    formatted_date (strictDateString y m d h mi s) =
      pad4 y ++ "-" ++ pad2 m ++ "-" ++ pad2 d := by
  unfold formatted_date
  rw [strptime_strict y m d h mi s (by omega) hy hm1 hm2 hd1 hd2 hh hmi hs]
  simp only [strftime_Ymd]
  rw [yearChars_ge1000 y hy1 hy]

/-- C4 witness: the specification's round-trip example. -/
theorem C4_witness :
    formatted_date (strictDateString 2025 1 1 14 1 15) =
      pad4 2025 ++ "-" ++ pad2 1 ++ "-" ++ pad2 1 ∧
    strictDateString 2025 1 1 14 1 15 = "2025-01-01 14:01:15" ∧
    pad4 2025 ++ "-" ++ pad2 1 ++ "-" ++ pad2 1 = "2025-01-01" :=
  ⟨C4_date_format_roundtrip 2025 1 1 14 1 15 (by decide) (by decide) (by decide)
    (by decide) (by decide) (by decide) (by decide) (by decide) (by decide),
   rfl, rfl⟩

/-- C1: for every input list on which the run completes without an uncaught
exception, the number of CSV data rows written (zero when no file is
created) equals the number of input records whose `type` field equals the
literal string `"EXPENSE"`; records with any other `type` value, including
other casings, produce no row. -/
theorem C1_row_count_invariant (data : List Entry) (path : String)
    (out : RunOutput) (h : parse_expenses_to_csv data path = .ok out) :
    rowsWrittenOf out = countExpenses data := by
  cases hbe : buildExpenses data
  · rw [parse_eq_err data path _ hbe] at h
    simp at h
  case ok expenses =>
    rw [parse_eq_ok data path expenses hbe] at h
    have hrows := buildExpenses_ok_eq data expenses hbe
    rw [countExpenses_eq_filter_length]
    by_cases hemp : expenses.isEmpty = true
    · rw [if_pos hemp] at h
      simp only [Except.ok.injEq] at h
      rw [← h]
      have hnil : expenses = [] := List.isEmpty_iff.mp hemp
      rw [hnil] at hrows
      have hfil : data.filter typeIsExpense = [] := by
        cases hft : data.filter typeIsExpense with
        | nil => rfl
        | cons a l => rw [hft] at hrows; simp at hrows
      simp [rowsWrittenOf, hfil]
    · rw [if_neg hemp] at h
      simp only [Except.ok.injEq] at h
      rw [← h]
      simp only [rowsWrittenOf]
      rw [hrows, List.length_map]

/-- C1 witness: the specification's end-to-end example writes exactly one
row for its one `EXPENSE` record. -/
theorem C1_witness :
    rowsWrittenOf
      { file := some { header := csvHeader
                     , rows := [{ Account := .str "Chase", Category := "Others"
                                , Amount := .num "42.5", Date := "2025-01-01"
                                , Description := .str "coffee" }] }
      , message := .successExported 1 "out.csv" } =
    countExpenses [{ type := some (.str "EXPENSE")
                   , date := some (.str "2025-01-01 14:01:15")
                   , bankname := some (.str "Chase")
                   , category := some (.str "misc")
                   , amount := some (.num "42.5")
                   , description := some (.str "coffee") }] :=
  C1_row_count_invariant _ "out.csv" _ rfl

/-- C2: for every kept record whose `date` and `category` values are
strings (an absent key defaulting to `''`), exactly one output row is
emitted, with Account = the `bankname` value or `''` if absent, Category =
the normalizer applied to the `category` value, Amount = the `amount`
value verbatim or `''` if absent, Date = the date formatter applied to the
`date` value, and Description = the `description` value or `''` if absent. -/
theorem C2_kept_record_cells (e : Entry) (ds cs : String)
    ( _ht : typeIsExpense e = true)
    (hd : dictGet e.date (.str "") = .str ds)
    (hc : dictGet e.category (.str "") = .str cs) :
    buildExpenses [e] = .ok
      [{ Account := dictGet e.bankname (.str "")
       , Category := replace_category cs
       , Amount := dictGet e.amount (.str "")
       , Date := formatted_date ds
       , Description := dictGet e.description (.str "") }] := by
  simp only [buildExpenses, _ht, if_true, processEntry_ok e ds cs hd hc]

/-- C2 witness: a kept record with only `type`, `date` and `category`
present; the absent fields come out as empty strings and the unrecognised
category passes through. -/
theorem C2_witness :
    buildExpenses [{ type := some (.str "EXPENSE")
                   , date := some (.str "2025-01-01 14:01:15")
                   , category := some (.str "Travel") }] =
      .ok [{ Account := .str "", Category := "Travel", Amount := .str ""
           , Date := "2025-01-01", Description := .str "" }] :=
  C2_kept_record_cells _ "2025-01-01 14:01:15" "Travel" rfl rfl rfl

/-- C5: for every kept record whose `date` value is a string that fails to
parse, no error is raised to the caller and the run is not aborted: the
row is still emitted with `Date` empty and all other cells populated from
the record. -/
theorem C5_date_failure_fallback (e : Entry) (ds cs : String)
    ( _ht : typeIsExpense e = true)
    (hd : dictGet e.date (.str "") = .str ds)
    (hfail : strptime_YmdHMS ds = none)
    (hc : dictGet e.category (.str "") = .str cs) :
    buildExpenses [e] = .ok
      [{ Account := dictGet e.bankname (.str "")
       , Category := replace_category cs
       , Amount := dictGet e.amount (.str "")
       , Date := ""
       , Description := dictGet e.description (.str "") }] := by
  have hfd : formatted_date ds = "" := by
    unfold formatted_date
    rw [hfail]
  simp only [buildExpenses, _ht, if_true, processEntry_ok e ds cs hd hc, hfd]

/-- C5 witness: the specification's `"not-a-date"` fallback example. -/
theorem C5_witness :
    buildExpenses [{ type := some (.str "EXPENSE")
                   , date := some (.str "not-a-date")
                   , bankname := some (.str "HDFC")
                   , category := some (.str "misc")
                   , amount := some (.num "7")
                   , description := some (.str "tea") }] =
      .ok [{ Account := .str "HDFC", Category := "Others", Amount := .num "7"
           , Date := "", Description := .str "tea" }] :=
  C5_date_failure_fallback _ "not-a-date" "misc" rfl rfl rfl rfl

/-- C6: when every kept record is processable, a run with zero `EXPENSE`
records creates no file (not even a header-only CSV) and prints the
distinct no-entries message, while a run with at least one `EXPENSE`
record writes the file (header plus rows) and reports the exported row
count and output path. -/
theorem C6_empty_result_behavior (data : List Entry) (path : String)
    (h : ∀ e ∈ data, typeIsExpense e = true → entryFieldsOK e = true) :
    (countExpenses data = 0 →
      parse_expenses_to_csv data path =
        .ok { file := none, message := .noEntriesFound }) ∧
    (0 < countExpenses data →
      parse_expenses_to_csv data path =
        .ok { file := some { header := csvHeader
                           , rows := (data.filter typeIsExpense).map rowOf }
            , message := .successExported (countExpenses data) path }) := by
  have hbe := buildExpenses_total data h
  have hlen : ((data.filter typeIsExpense).map rowOf).length = countExpenses data := by
    rw [List.length_map, countExpenses_eq_filter_length]
  constructor
  · intro h0
    have hfil : data.filter typeIsExpense = [] := by
      rw [countExpenses_eq_filter_length] at h0
      exact List.length_eq_zero.mp h0
    rw [hfil] at hbe
    rw [parse_eq_ok data path _ hbe]
    rfl
  · intro hpos
    have hne : ¬(((data.filter typeIsExpense).map rowOf).isEmpty = true) := by
      rw [List.isEmpty_iff]
      intro hnil
      rw [hnil] at hlen
      simp at hlen
      omega
    rw [parse_eq_ok data path _ hbe, if_neg hne, hlen]

/-- C6 witness: the empty input array creates no file and takes the
no-entries message path. -/
theorem C6_witness :
    parse_expenses_to_csv [] "out.csv" =
      .ok { file := none, message := .noEntriesFound } :=
  (C6_empty_result_behavior [] "out.csv" (by simp)).1 rfl

/-- C7: the pipeline iterates records in input order, and a completed
run's row list is exactly the per-record row of each kept record, in the
order the kept records appear in the input (stable, no reordering). -/
theorem C7_order_preservation (data : List Entry) (rows : List Row)
    (h : buildExpenses data = .ok rows) :
    rows = (data.filter typeIsExpense).map rowOf :=
  buildExpenses_ok_eq data rows h

/-- C7 witness: two kept records separated by a skipped one come out as
their two rows in input order. -/
theorem C7_witness :
    [{ Account := .str "", Category := "", Amount := .str ""
     , Date := "", Description := .str "first" },
     { Account := .str "", Category := "", Amount := .str ""
     , Date := "", Description := .str "second" }] =
    (([{ type := some (.str "INCOME") },
       { type := some (.str "EXPENSE"), description := some (.str "first") },
       { type := some (.str "EXPENSE"), description := some (.str "second") }] :
        List Entry).filter typeIsExpense).map rowOf :=
  C7_order_preservation _ _ rfl

/-- C8: for a kept record whose `date` field is present but holds a
non-string JSON value, `strptime` raises a `TypeError`, which the
`except ValueError` handler does not catch, so the run aborts with an
uncaught exception instead of emitting the row. -/
theorem C8_nonstring_date_aborts (e : Entry) (v : JValue) (path : String)
    (ht : typeIsExpense e = true) (hdate : e.date = some v)
    (hns : v.isStr = false) :
    parse_expenses_to_csv [e] path = .error PyExc.typeError := by
  have hget : dictGet e.date (.str "") = v := by
    rw [dictGet, hdate]
    rfl
  have hpe : processEntry e = .error .typeError := by
    unfold processEntry
    rw [hget]
    cases v <;> simp_all [JValue.isStr]
  simp only [parse_expenses_to_csv, buildExpenses, ht, if_true, hpe]

/-- C8 witness: a JSON `null` date on an `EXPENSE` record aborts the run. -/
theorem C8_witness :
    parse_expenses_to_csv [{ type := some (.str "EXPENSE"), date := some .null }]
      "out.csv" = .error PyExc.typeError :=
  C8_nonstring_date_aborts _ .null "out.csv" rfl rfl rfl

/-- C10: the run's entire observable outcome depends only on the ordered
subsequence of `EXPENSE`-typed records: two inputs with the same kept
subsequence produce identical results, so the contents, insertion or
removal of non-`EXPENSE` records never influence the output. -/
theorem C10_noninterference (d1 d2 : List Entry) (path : String)
    (h : d1.filter typeIsExpense = d2.filter typeIsExpense) :
    parse_expenses_to_csv d1 path = parse_expenses_to_csv d2 path := by
  unfold parse_expenses_to_csv
  rw [buildExpenses_filter d1, buildExpenses_filter d2, h]

/-- C10 witness: surrounding a kept record with a lowercase-`"expense"`
record and a typeless record changes nothing. -/
theorem C10_witness :
    parse_expenses_to_csv
      [{ type := some (.str "EXPENSE"), category := some (.str "bills") }]
      "out.csv" =
    parse_expenses_to_csv
      [{ type := some (.str "expense"), amount := some (.num "999") },
       { type := some (.str "EXPENSE"), category := some (.str "bills") },
       { description := some (.str "noise") }]
      "out.csv" :=
  C10_noninterference _ _ "out.csv" rfl

end MarkMyExpense
